import Mathlib

/-!
Verification development for the DC power supply sizing program
(streamlit_app.py).  The domain logic is embedded shallowly:

* All Python floats that the formulas combine are modelled as exact
  rationals (`ℚ`); the spec states the Step 1/2/3 formulas as exact
  arithmetic identities, so `ℚ` is the faithful idealisation.
* `math.ceil` on a float is `Int.ceil` on `ℚ`.
* For the claims about NaN, infinities and raised exceptions a second
  layer `PFloat` extends `ℚ` with `nan`, `+inf`, `-inf`, and fallible
  operations return `Except PyExn`, mirroring which Python operations
  raise (`float / 0` raises ZeroDivisionError, `math.ceil nan` raises
  ValueError, `math.ceil ±inf` raises OverflowError).
-/

namespace DC

/-- Kc coefficient table of `DCLoadCalculator.kc_values_185`, keyed by the
discharge-duration label exactly as the source dict (1.85 V/cell end
voltage); lookups for keys outside the 18 entries never occur in the
program and default to 0 here. -/
def kc_values_185 : String → ℚ
  | "5s" => 1.34
  | "1min" => 1.24
  | "29min" => 0.8
  | "0.5h" => 0.78
  | "59min" => 0.558
  | "1.0h" => 0.54
  | "89min" => 0.432
  | "1.5h" => 0.428
  | "119min" => 0.347
  | "2.0h" => 0.344
  | "179min" => 0.263
  | "3.0h" => 0.262
  | "4.0h" => 0.214
  | "5.0h" => 0.18
  | "6.0h" => 0.157
  | "7.0h" => 0.14
  | "479min" => 0.123
  | "8.0h" => 0.123
  | _ => 0

/-- The per-category current totals returned by
`DCLoadCalculator.calculate_statistics` (the `stats` dict). -/
structure Stats where
  I0 : ℚ
  I1 : ℚ
  I2 : ℚ
  I3 : ℚ
  I4 : ℚ
  I5 : ℚ
  IR : ℚ
deriving DecidableEq, Repr

/-- The six per-duration capacities returned by
`DCLoadCalculator.calculate_capacity` (the `capacity_calc` dict). -/
structure CapacityCalc where
  initial : ℚ
  stage1 : ℚ
  stage2 : ℚ
  stage3 : ℚ
  stage4 : ℚ
  random : ℚ
deriving DecidableEq, Repr

/-- The five random-load-superposed capacities returned by
`DCLoadCalculator.calculate_combined_load` (the `combined` dict). -/
structure CombinedLoad where
  initial : ℚ
  stage1 : ℚ
  stage2 : ℚ
  stage3 : ℚ
  stage4 : ℚ
deriving DecidableEq, Repr

/-- `DCLoadCalculator.calculate_capacity`: per-duration capacity from the
category totals, with every coefficient fetched from `kc_values_185` by
its string label, exactly as in the source. -/
def calculate_capacity (stats : Stats) : CapacityCalc where
  initial := 1.4 * (stats.I1 / kc_values_185 "1min")
  stage1 := 1.4 * ((stats.I1 / kc_values_185 "2.0h") +
    ((stats.I2 - stats.I1) / kc_values_185 "29min"))
  stage2 := 1.4 * ((stats.I1 / kc_values_185 "2.0h") +
    ((stats.I2 - stats.I1) / kc_values_185 "59min") +
    ((stats.I3 - stats.I2) / kc_values_185 "0.5h"))
  stage3 := 1.4 * ((stats.I1 / kc_values_185 "2.0h") +
    ((stats.I2 - stats.I1) / kc_values_185 "119min") +
    ((stats.I3 - stats.I2) / kc_values_185 "1.5h") +
    ((stats.I4 - stats.I3) / kc_values_185 "1.0h"))
  stage4 := 1.4 * ((stats.I1 / kc_values_185 "4.0h") +
    ((stats.I2 - stats.I1) / kc_values_185 "4.0h") +
    ((stats.I5 - stats.I4) / kc_values_185 "2.0h"))
  random := stats.IR / kc_values_185 "5s"

/-- `DCLoadCalculator.calculate_combined_load`: random capacity added onto
each of the five staged capacities. -/
def calculate_combined_load (c : CapacityCalc) : CombinedLoad where
  initial := c.initial + c.random
  stage1 := c.stage1 + c.random
  stage2 := c.stage2 + c.random
  stage3 := c.stage3 + c.random
  stage4 := c.stage4 + c.random

/-- `DCLoadCalculator.calculate_final_capacity`: ceiling of the maximum of
the five combined values (`max` over `combined_load.values()` in
insertion order, then `math.ceil`). -/
def calculate_final_capacity (d : CombinedLoad) : ℤ :=
  Int.ceil (max (max (max (max d.initial d.stage1) d.stage2) d.stage3) d.stage4)

/-- Written from the words of claim C1 (spec Step 1): the staged-capacity
formulas with the coefficient values inlined as numeric literals
(Kc["1min"]=1.24, Kc["2.0h"]=0.344, and so on). -/
def capacity_formulas_spec (s : Stats) : CapacityCalc where
  initial := 1.4 * (s.I1 / 1.24)
  stage1 := 1.4 * (s.I1 / 0.344 + (s.I2 - s.I1) / 0.8)
  stage2 := 1.4 * (s.I1 / 0.344 + (s.I2 - s.I1) / 0.558 + (s.I3 - s.I2) / 0.78)
  stage3 := 1.4 * (s.I1 / 0.344 + (s.I2 - s.I1) / 0.347 + (s.I3 - s.I2) / 0.428 +
    (s.I4 - s.I3) / 0.54)
  stage4 := 1.4 * (s.I1 / 0.214 + (s.I2 - s.I1) / 0.214 + (s.I5 - s.I4) / 0.344)
  random := s.IR / 1.34

/-- C1: for every CategoryTotals input the per-duration capacities of
`calculate_capacity` equal exactly the spec Step 1 formulas with the
fixed 1.85 V/cell coefficient table, with no clamping of negative
difference terms. -/
theorem C1_capacity_formulas (s : Stats) :
    calculate_capacity s = capacity_formulas_spec s := by
  simp only [calculate_capacity, capacity_formulas_spec, kc_values_185]

/-- C2: each combined value is the corresponding stage capacity plus the
random capacity (the random capacity is added to every stage and to
nothing else), the final design capacity is the ceiling of the maximum of
the five combined values, and this ceiling rounds 100.01 up to 101 while
leaving 100.0 at 100. -/
theorem C2_combined_and_final :
    (∀ c : CapacityCalc,
      calculate_combined_load c =
        { initial := c.initial + c.random
          stage1 := c.stage1 + c.random
          stage2 := c.stage2 + c.random
          stage3 := c.stage3 + c.random
          stage4 := c.stage4 + c.random }) ∧
    (∀ d : CombinedLoad,
      calculate_final_capacity d =
        Int.ceil (max (max (max (max d.initial d.stage1) d.stage2) d.stage3)
          d.stage4)) ∧
    calculate_final_capacity ⟨100.01, 100.01, 100.01, 100.01, 100.01⟩ = 101 ∧
    calculate_final_capacity ⟨100.0, 100.0, 100.0, 100.0, 100.0⟩ = 100 := by
  refine ⟨fun c => rfl, fun d => rfl, ?_, ?_⟩ <;>
    · simp only [calculate_final_capacity, max_self]
      rw [Int.ceil_eq_iff]
      norm_num

/-- One itemized load as entered in the form: name, rated power (kW),
usage factor, and the seven category checkboxes. -/
structure Load where
  name : String
  capacity : ℚ
  load_factor : ℚ
  frequent : Bool
  cho : Bool
  stage1 : Bool
  stage2 : Bool
  stage3 : Bool
  stage4 : Bool
  random : Bool
deriving DecidableEq, Repr

/-- `DCLoadCalculator.calculate_current`: rated power (kW) times 1000
times the usage factor, divided by the 220 V bus voltage. -/
def calculate_current (capacity load_factor : ℚ) : ℚ :=
  capacity * 1000 * load_factor / 220

/-- Derived attribute current_A of a Load (spec data model). -/
def current_A (l : Load) : ℚ := calculate_current l.capacity l.load_factor

/-- One `load_data` record of `loads_data`: the per-category currents are
precomputed at append time. -/
structure LoadData where
  name : String
  capacity : ℚ
  load_factor : ℚ
  calc_current : ℚ
  frequent_current : ℚ
  cho_current : ℚ
  stage1_current : ℚ
  stage2_current : ℚ
  stage3_current : ℚ
  stage4_current : ℚ
  random_current : ℚ
deriving DecidableEq, Repr

/-- The `load_data` dict built by the add-load submit handler: each
category current is the computed current when the category checkbox is
ticked, else 0. -/
def make_load_data (l : Load) : LoadData :=
  let current := calculate_current l.capacity l.load_factor
  { name := l.name
    capacity := l.capacity
    load_factor := l.load_factor
    calc_current := current
    frequent_current := if l.frequent then current else 0
    cho_current := if l.cho then current else 0
    stage1_current := if l.stage1 then current else 0
    stage2_current := if l.stage2 then current else 0
    stage3_current := if l.stage3 then current else 0
    stage4_current := if l.stage4 then current else 0
    random_current := if l.random then current else 0 }

/-- `DCLoadCalculator.calculate_statistics`: the seven category totals,
each the sum of the matching per-record current over `loads_data`. -/
def calculate_statistics (loads_data : List LoadData) : Stats where
  I0 := (loads_data.map (fun l => l.frequent_current)).sum
  I1 := (loads_data.map (fun l => l.cho_current)).sum
  I2 := (loads_data.map (fun l => l.stage1_current)).sum
  I3 := (loads_data.map (fun l => l.stage2_current)).sum
  I4 := (loads_data.map (fun l => l.stage3_current)).sum
  I5 := (loads_data.map (fun l => l.stage4_current)).sum
  IR := (loads_data.map (fun l => l.random_current)).sum

/-- The composition the compute button performs: statistics, capacity,
combined load, then the final ceiling (spec name `compute_final`). -/
def compute_final (loads_data : List LoadData) : ℤ :=
  calculate_final_capacity (calculate_combined_load (calculate_capacity
    (calculate_statistics loads_data)))

/-- C8: `compute_final` returns the same final design capacity on any
permutation of the load collection, because every total is an
order-independent sum. -/
theorem C8_perm_invariant (l1 l2 : List LoadData) (h : l1.Perm l2) :
    compute_final l1 = compute_final l2 := by
  have hs : calculate_statistics l1 = calculate_statistics l2 := by
    simp only [calculate_statistics, Stats.mk.injEq]
    exact ⟨(h.map _).sum_eq, (h.map _).sum_eq, (h.map _).sum_eq,
      (h.map _).sum_eq, (h.map _).sum_eq, (h.map _).sum_eq, (h.map _).sum_eq⟩
  simp [compute_final, hs]

/-- A sample load-data record used to witness the permutation claim. -/
def sampleLoadA : LoadData :=
  ⟨"load a", 10, 0.6, 300/11, 300/11, 300/11, 0, 0, 0, 0, 0⟩

/-- A second sample load-data record used to witness the permutation
claim. -/
def sampleLoadB : LoadData :=
  ⟨"load b", 5, 1, 250/11, 0, 250/11, 250/11, 0, 0, 0, 250/11⟩

/-- Witness for C8 at a concrete two-element collection and its swap. -/
theorem C8_perm_invariant_witness :
    List.Perm [sampleLoadA, sampleLoadB] [sampleLoadB, sampleLoadA] ∧
    compute_final [sampleLoadA, sampleLoadB] =
      compute_final [sampleLoadB, sampleLoadA] :=
  ⟨List.Perm.swap sampleLoadB sampleLoadA [],
   C8_perm_invariant _ _ (List.Perm.swap sampleLoadB sampleLoadA [])⟩

/-- C9: each of the seven totals is exactly the sum over all loads of the
load's current where the matching category flag is true and 0 where it is
false, with current_A = rated power × 1000 × usage factor / 220; and
appending one load adds its current to exactly the totals of its tagged
categories, leaving every other total unchanged. -/
theorem C9_totals_are_tagged_sums (loads : List Load) (x : Load) :
    ((calculate_statistics (loads.map make_load_data)).I0
        = (loads.map (fun l => if l.frequent then current_A l else 0)).sum ∧
      (calculate_statistics (loads.map make_load_data)).I1
        = (loads.map (fun l => if l.cho then current_A l else 0)).sum ∧
      (calculate_statistics (loads.map make_load_data)).I2
        = (loads.map (fun l => if l.stage1 then current_A l else 0)).sum ∧
      (calculate_statistics (loads.map make_load_data)).I3
        = (loads.map (fun l => if l.stage2 then current_A l else 0)).sum ∧
      (calculate_statistics (loads.map make_load_data)).I4
        = (loads.map (fun l => if l.stage3 then current_A l else 0)).sum ∧
      (calculate_statistics (loads.map make_load_data)).I5
        = (loads.map (fun l => if l.stage4 then current_A l else 0)).sum ∧
      (calculate_statistics (loads.map make_load_data)).IR
        = (loads.map (fun l => if l.random then current_A l else 0)).sum) ∧
    ((calculate_statistics ((loads ++ [x]).map make_load_data)).I0
        = (calculate_statistics (loads.map make_load_data)).I0
          + (if x.frequent then current_A x else 0) ∧
      (calculate_statistics ((loads ++ [x]).map make_load_data)).I1
        = (calculate_statistics (loads.map make_load_data)).I1
          + (if x.cho then current_A x else 0) ∧
      (calculate_statistics ((loads ++ [x]).map make_load_data)).I2
        = (calculate_statistics (loads.map make_load_data)).I2
          + (if x.stage1 then current_A x else 0) ∧
      (calculate_statistics ((loads ++ [x]).map make_load_data)).I3
        = (calculate_statistics (loads.map make_load_data)).I3
          + (if x.stage2 then current_A x else 0) ∧
      (calculate_statistics ((loads ++ [x]).map make_load_data)).I4
        = (calculate_statistics (loads.map make_load_data)).I4
          + (if x.stage3 then current_A x else 0) ∧
      (calculate_statistics ((loads ++ [x]).map make_load_data)).I5
        = (calculate_statistics (loads.map make_load_data)).I5
          + (if x.stage4 then current_A x else 0) ∧
      (calculate_statistics ((loads ++ [x]).map make_load_data)).IR
        = (calculate_statistics (loads.map make_load_data)).IR
          + (if x.random then current_A x else 0)) := by
  simp [calculate_statistics, make_load_data, current_A, List.map_map,
    Function.comp_def]

/-- Python exception kinds the modelled numeric operations can raise:
ZeroDivisionError from float division by zero, ValueError from
`math.ceil` on NaN, OverflowError from `math.ceil` on an infinity. -/
inductive PyExn where
  | zeroDivision : PyExn
  | valueError : PyExn
  | overflowError : PyExn
deriving DecidableEq, Repr

/-- A Python float idealised: an exact rational magnitude, NaN, or a
signed infinity (the sign of a float zero is irrelevant to every
operation this program performs on one). -/
inductive PFloat where
  | fin : ℚ → PFloat
  | nan : PFloat
  | pinf : PFloat
  | ninf : PFloat
deriving DecidableEq, Repr

/-- Whether a PFloat is an ordinary finite number. -/
def PFloat.isFinite : PFloat → Bool
  | .fin _ => true
  | _ => false

/-- Python float addition: NaN absorbs, opposite infinities give NaN. -/
def padd : PFloat → PFloat → PFloat
  | .nan, _ => .nan
  | _, .nan => .nan
  | .pinf, .ninf => .nan
  | .ninf, .pinf => .nan
  | .pinf, _ => .pinf
  | _, .pinf => .pinf
  | .ninf, _ => .ninf
  | _, .ninf => .ninf
  | .fin a, .fin b => .fin (a + b)

/-- Python float subtraction: NaN absorbs, like-signed infinities give
NaN. -/
def psub : PFloat → PFloat → PFloat
  | .nan, _ => .nan
  | _, .nan => .nan
  | .pinf, .pinf => .nan
  | .ninf, .ninf => .nan
  | .pinf, _ => .pinf
  | .ninf, _ => .ninf
  | _, .pinf => .ninf
  | _, .ninf => .pinf
  | .fin a, .fin b => .fin (a - b)

/-- Python float multiplication: NaN absorbs, infinity times zero gives
NaN, otherwise signs combine. -/
def pmul : PFloat → PFloat → PFloat
  | .nan, _ => .nan
  | _, .nan => .nan
  | .fin a, .fin b => .fin (a * b)
  | .pinf, .pinf => .pinf
  | .pinf, .ninf => .ninf
  | .ninf, .pinf => .ninf
  | .ninf, .ninf => .pinf
  | .pinf, .fin b => if 0 < b then .pinf else if b < 0 then .ninf else .nan
  | .ninf, .fin b => if 0 < b then .ninf else if b < 0 then .pinf else .nan
  | .fin a, .pinf => if 0 < a then .pinf else if a < 0 then .ninf else .nan
  | .fin a, .ninf => if 0 < a then .ninf else if a < 0 then .pinf else .nan

/-- Python float division: raises ZeroDivisionError whenever the divisor
is (float) zero, regardless of the dividend; otherwise NaN absorbs, a
finite value divided by an infinity is zero, infinity over infinity is
NaN, and infinity over a finite value keeps the combined sign. -/
def pdiv (x y : PFloat) : Except PyExn PFloat :=
  match x, y with
  | x, .fin b =>
    if b = 0 then .error .zeroDivision
    else
      match x with
      | .fin a => .ok (.fin (a / b))
      | .nan => .ok .nan
      | .pinf => .ok (if 0 < b then .pinf else .ninf)
      | .ninf => .ok (if 0 < b then .ninf else .pinf)
  | .nan, _ => .ok .nan
  | _, .nan => .ok .nan
  | .fin _, .pinf => .ok (.fin 0)
  | .fin _, .ninf => .ok (.fin 0)
  | _, _ => .ok .nan

/-- Python `math.ceil` on a float: the integer ceiling on a finite value,
ValueError on NaN, OverflowError on an infinity. -/
def pceil : PFloat → Except PyExn ℤ
  | .fin a => .ok (Int.ceil a)
  | .nan => .error .valueError
  | .pinf => .error .overflowError
  | .ninf => .error .overflowError

/-- Python float strict greater-than: every comparison against NaN is
false. -/
def pygt : PFloat → PFloat → Bool
  | .fin a, .fin b => decide (b < a)
  | .nan, _ => false
  | _, .nan => false
  | .pinf, .pinf => false
  | .pinf, _ => true
  | .ninf, _ => false
  | .fin _, .ninf => true
  | .fin _, .pinf => false

/-- Python float less-or-equal: every comparison against NaN is false. -/
def pyle : PFloat → PFloat → Bool
  | .fin a, .fin b => decide (a ≤ b)
  | .nan, _ => false
  | _, .nan => false
  | .pinf, .pinf => true
  | .pinf, _ => false
  | .ninf, _ => true
  | .fin _, .pinf => true
  | .fin _, .ninf => false

/-- One step of Python `max` over a sequence: the accumulator is replaced
exactly when the candidate compares strictly greater, so a NaN candidate
never replaces the accumulator and a NaN accumulator is never replaced. -/
def pymax (acc v : PFloat) : PFloat :=
  if pygt v acc then v else acc

/-- Category totals as Python floats, for the NaN/exception-level model
of the engine. -/
structure StatsF where
  I0 : PFloat
  I1 : PFloat
  I2 : PFloat
  I3 : PFloat
  I4 : PFloat
  I5 : PFloat
  IR : PFloat
deriving DecidableEq, Repr

/-- Per-duration capacities as Python floats. -/
structure CapacityF where
  initial : PFloat
  stage1 : PFloat
  stage2 : PFloat
  stage3 : PFloat
  stage4 : PFloat
  random : PFloat
deriving DecidableEq, Repr

/-- Combined capacities as Python floats. -/
structure CombinedF where
  initial : PFloat
  stage1 : PFloat
  stage2 : PFloat
  stage3 : PFloat
  stage4 : PFloat
deriving DecidableEq, Repr

/-- `DCLoadCalculator.calculate_capacity` at the Python-float level: the
same staged formulas, with each float division routed through `pdiv` so
that its raise behaviour is explicit (none of these divisions can in
fact raise, every divisor being a nonzero table constant). -/
def calculate_capacityF (stats : StatsF) : Except PyExn CapacityF := do
  let a1 ← pdiv stats.I1 (.fin (kc_values_185 "1min"))
  let initial := pmul (.fin 1.4) a1
  let b1 ← pdiv stats.I1 (.fin (kc_values_185 "2.0h"))
  let b2 ← pdiv (psub stats.I2 stats.I1) (.fin (kc_values_185 "29min"))
  let stage1 := pmul (.fin 1.4) (padd b1 b2)
  let c1 ← pdiv stats.I1 (.fin (kc_values_185 "2.0h"))
  let c2 ← pdiv (psub stats.I2 stats.I1) (.fin (kc_values_185 "59min"))
  let c3 ← pdiv (psub stats.I3 stats.I2) (.fin (kc_values_185 "0.5h"))
  let stage2 := pmul (.fin 1.4) (padd (padd c1 c2) c3)
  let d1 ← pdiv stats.I1 (.fin (kc_values_185 "2.0h"))
  let d2 ← pdiv (psub stats.I2 stats.I1) (.fin (kc_values_185 "119min"))
  let d3 ← pdiv (psub stats.I3 stats.I2) (.fin (kc_values_185 "1.5h"))
  let d4 ← pdiv (psub stats.I4 stats.I3) (.fin (kc_values_185 "1.0h"))
  let stage3 := pmul (.fin 1.4) (padd (padd (padd d1 d2) d3) d4)
  let e1 ← pdiv stats.I1 (.fin (kc_values_185 "4.0h"))
  let e2 ← pdiv (psub stats.I2 stats.I1) (.fin (kc_values_185 "4.0h"))
  let e3 ← pdiv (psub stats.I5 stats.I4) (.fin (kc_values_185 "2.0h"))
  let stage4 := pmul (.fin 1.4) (padd (padd e1 e2) e3)
  let random ← pdiv stats.IR (.fin (kc_values_185 "5s"))
  return ⟨initial, stage1, stage2, stage3, stage4, random⟩

/-- `DCLoadCalculator.calculate_combined_load` at the Python-float
level. -/
def calculate_combined_loadF (c : CapacityF) : CombinedF where
  initial := padd c.initial c.random
  stage1 := padd c.stage1 c.random
  stage2 := padd c.stage2 c.random
  stage3 := padd c.stage3 c.random
  stage4 := padd c.stage4 c.random

/-- `DCLoadCalculator.calculate_final_capacity` at the Python-float
level: Python `max` over the five dict values in insertion order, then
`math.ceil`, which raises on NaN or an infinity. -/
def calculate_final_capacityF (d : CombinedF) : Except PyExn ℤ :=
  pceil (pymax (pymax (pymax (pymax d.initial d.stage1) d.stage2) d.stage3)
    d.stage4)

/-- The engine pipeline at the Python-float level, from category totals
to the final design capacity. -/
def compute_finalF (stats : StatsF) : Except PyExn ℤ := do
  calculate_final_capacityF (calculate_combined_loadF
    (← calculate_capacityF stats))

/-- The all-NaN category totals, the simplest numeric input on which the
pipeline raises. -/
def nanStats : StatsF :=
  ⟨.nan, .nan, .nan, .nan, .nan, .nan, .nan⟩

/-- Python `max` of two finite floats is the usual maximum. -/
theorem pymax_fin (a b : ℚ) : pymax (.fin a) (.fin b) = .fin (max a b) := by
  simp only [pymax, pygt]
  rcases lt_or_le a b with h | h
  · simp [h, max_eq_right h.le]
  · simp [not_lt.mpr h, max_eq_left h]

/-- C3 counterexample: on the all-NaN category totals the engine pipeline
raises rather than returning NaN: the NaN capacities propagate to the
combined values, Python `max` hands the NaN to `math.ceil`, and
`math.ceil` raises ValueError, so `compute_final` raises for a numeric
input. -/
theorem C3_pipeline_raises_on_nan :
    compute_finalF nanStats = .error .valueError := by
  norm_num [compute_finalF, calculate_capacityF, calculate_combined_loadF,
    calculate_final_capacityF, nanStats, pdiv, pmul, padd, psub, pymax, pygt,
    pceil, kc_values_185, bind, Except.bind, pure, Except.pure]

/-- C3 amended: on every finite numeric CategoryTotals input, negative
totals included, the pipeline never raises and returns an integer; a NaN
input propagates as NaN through compute_capacity and compute_combined
without being rejected, but compute_final then raises on the NaN. -/
theorem C3_amended_no_raise_on_finite :
    (∀ q0 q1 q2 q3 q4 q5 qr : ℚ, ∃ z : ℤ,
      compute_finalF ⟨.fin q0, .fin q1, .fin q2, .fin q3, .fin q4, .fin q5,
        .fin qr⟩ = .ok z) ∧
    calculate_capacityF nanStats =
      .ok ⟨.nan, .nan, .nan, .nan, .nan, .nan⟩ ∧
    calculate_combined_loadF ⟨.nan, .nan, .nan, .nan, .nan, .nan⟩ =
      ⟨.nan, .nan, .nan, .nan, .nan⟩ := by
  refine ⟨fun q0 q1 q2 q3 q4 q5 qr => ?_, ?_, ?_⟩
  · norm_num [compute_finalF, calculate_capacityF, calculate_combined_loadF,
      calculate_final_capacityF, pdiv, pmul, padd, psub, pymax_fin,
      pceil, kc_values_185, bind, Except.bind, pure, Except.pure]
  · norm_num [calculate_capacityF, nanStats, pdiv, pmul, padd, psub,
      kc_values_185, bind, Except.bind, pure, Except.pure]
  · norm_num [calculate_combined_loadF, padd]

/-- `BatteryCountCalculator.calculate_battery_count`: the quotient of the
two voltages times 1.05, then one ceiling. -/
def calculate_battery_count (un uf : ℚ) : ℤ :=
  Int.ceil (un / uf * 1.05)

/-- `BatteryCountCalculator.calculate_battery_count` at the Python-float
level, with the division and the final `math.ceil` fallible. -/
def calculate_battery_countF (un uf : PFloat) : Except PyExn ℤ := do
  pceil (pmul (← pdiv un uf) (.fin 1.05))

/-- `BatteryCountCalculator.calculate_with_inputs` on numeric inputs:
inputs failing the positivity check give the message path (`.ok none`,
the (None, message) return); the `except` clauses catch exactly
ValueError and ZeroDivisionError, also giving `.ok none`; an
OverflowError from `math.ceil` on an infinite value is not caught and
propagates (`.error`).  Parsing of non-numeric strings (a caught
ValueError) is outside this numeric model. -/
def calculate_with_inputs (un uf : PFloat) : Except PyExn (Option ℤ) :=
  if pyle un (.fin 0) || pyle uf (.fin 0) then .ok none
  else
    match calculate_battery_countF un uf with
    | .ok n => .ok (some n)
    | .error .valueError => .ok none
    | .error .zeroDivision => .ok none
    | .error .overflowError => .error .overflowError

/-- C6: the battery count is the ceiling of the unrounded quotient Un/Uf
multiplied by 1.05 (stated with the factor written as 21/20), and at
Un = 220, Uf = 2.23 the count is 104. -/
theorem C6_battery_formula :
    (∀ un uf : ℚ,
      calculate_battery_count un uf = Int.ceil (un / uf * (21 / 20))) ∧
    calculate_battery_count 220 2.23 = 104 := by
  constructor
  · intro un uf
    norm_num [calculate_battery_count]
  · have hc : (⌈(23100 / 223 : ℚ)⌉ : ℤ) = 104 := by
      rw [Int.ceil_eq_iff]
      norm_num
    norm_num [calculate_battery_count, hc]

/-- C5 counterexample: a non-finite float voltage is accepted, not
rejected: with Uf = +inf the positivity check passes (`inf <= 0` is
false), the quotient is 0.0, and the calculator returns the count 0
instead of an InvalidInput error. -/
theorem C5_infinite_float_voltage_returns_count :
    calculate_with_inputs (.fin 220) .pinf = .ok (some 0) := by
  norm_num [calculate_with_inputs, calculate_battery_countF, pdiv, pmul, padd,
    pceil, pyle, bind, Except.bind, pure, Except.pure]

/-- C5 amended: on positive finite voltages the calculator returns the
ceiling count without raising; it returns the error path exactly when
either voltage is ≤ 0 or the quotient is NaN (a NaN input passes the
`<= 0` check but the ceiling then raises a caught ValueError); an
infinite quotient raises an uncaught OverflowError instead of returning
an error, and an infinite float voltage returns a count. -/
theorem C5_amended_failure_condition :
    (∀ un uf : ℚ, 0 < un → 0 < uf →
      calculate_with_inputs (.fin un) (.fin uf) =
        .ok (some (Int.ceil (un / uf * 1.05)))) ∧
    (∀ un uf : ℚ, un ≤ 0 ∨ uf ≤ 0 →
      calculate_with_inputs (.fin un) (.fin uf) = .ok none) ∧
    (∀ uf : ℚ, calculate_with_inputs .nan (.fin uf) = .ok none) ∧
    (∀ uf : ℚ, 0 < uf →
      calculate_with_inputs .pinf (.fin uf) = .error .overflowError) := by
  refine ⟨fun un uf h1 h2 => ?_, fun un uf h => ?_, fun uf => ?_,
    fun uf h => ?_⟩
  · norm_num [calculate_with_inputs, calculate_battery_countF, pdiv, pmul,
      padd, pceil, pyle, bind, Except.bind, pure, Except.pure, not_le.mpr h1,
      not_le.mpr h2, h2.ne']
  · rcases h with h | h <;> simp [calculate_with_inputs, pyle, h]
  · by_cases h : uf ≤ 0
    · simp [calculate_with_inputs, pyle, h]
    · norm_num [calculate_with_inputs, calculate_battery_countF, pdiv, pmul,
        padd, pceil, pyle, bind, Except.bind, pure, Except.pure, h,
        (not_le.mp h).ne']
  · norm_num [calculate_with_inputs, calculate_battery_countF, pdiv, pmul,
      padd, pceil, pyle, bind, Except.bind, pure, Except.pure, not_le.mpr h,
      h.ne', h]

/-- Witness for the amended C5 at the defaults Un = 220 V, Uf = 2.23 V. -/
theorem C5_amended_witness :
    (0 : ℚ) < 220 ∧ (0 : ℚ) < 2.23 ∧
    calculate_with_inputs (.fin 220) (.fin 2.23) =
      .ok (some (Int.ceil ((220 : ℚ) / 2.23 * 1.05))) :=
  ⟨by norm_num, by norm_num,
    C5_amended_failure_condition.1 220 2.23 (by norm_num) (by norm_num)⟩

/-- The result record of
`HighFrequencyPowerModuleCalculator.calculate_module_count`, minus the
human-readable derivation string (presentation only). -/
structure ModuleResultF where
  calc_current : PFloat
  n1 : ℤ
  n2 : ℤ
  total_modules : ℤ
deriving DecidableEq, Repr

/-- The body of the `try` block of `calculate_module_count`: the
calculated current, the basic module count by fallible ceiling division,
the extra-module step at the 6/7 threshold, and their sum. -/
def calculate_module_count_raw
    (battery_capacity frequent_current module_current : PFloat) :
    Except PyExn ModuleResultF := do
  let calc_current := padd
    (pmul (.fin 1.25) (← pdiv battery_capacity (.fin 10))) frequent_current
  let n1 ← pceil (← pdiv calc_current module_current)
  let n2 : ℤ := if n1 ≤ 6 then 1 else 2
  return ⟨calc_current, n1, n2, n1 + n2⟩

/-- `HighFrequencyPowerModuleCalculator.calculate_module_count`: the body
runs inside `try: ... except Exception: return None`, so every raised
exception becomes the error value None. -/
def calculate_module_count (b f m : PFloat) : Option ModuleResultF :=
  (calculate_module_count_raw b f m).toOption

/-- Written from the words of claim C7: calc_current = 1.25 ×
(battery_capacity / 10) + frequent_load_current, n1 the ceiling of
calc_current over the module rated current, n2 = 1 when n1 ≤ 6 and 2
otherwise, total = n1 + n2. -/
def module_count_spec (b f m : ℚ) : ModuleResultF :=
  let cc : ℚ := 1.25 * (b / 10) + f
  let n1 : ℤ := Int.ceil (cc / m)
  let n2 : ℤ := if n1 ≤ 6 then 1 else 2
  ⟨.fin cc, n1, n2, n1 + n2⟩

/-- C7: on every valid input triple (positive module rated current,
finite inputs) the module calculator returns exactly the spec formulas,
the threshold boundary is exact (n1 = 6 gives n2 = 1 and total 7, n1 = 7
gives n2 = 2 and total 9), and compute(400, 27.27, 20) returns
calc_current = 77.27, n1 = 4, n2 = 1, total = 5. -/
theorem C7_module_count_formulas :
    (∀ b f m : ℚ, 0 < m →
      calculate_module_count (.fin b) (.fin f) (.fin m) =
        some (module_count_spec b f m)) ∧
    calculate_module_count (.fin 400) (.fin 27.27) (.fin 20) =
      some ⟨.fin 77.27, 4, 1, 5⟩ ∧
    calculate_module_count (.fin 0) (.fin 6) (.fin 1) =
      some ⟨.fin 6, 6, 1, 7⟩ ∧
    calculate_module_count (.fin 0) (.fin 7) (.fin 1) =
      some ⟨.fin 7, 7, 2, 9⟩ := by
  refine ⟨fun b f m hm => ?_, ?_, ?_, ?_⟩
  · norm_num [calculate_module_count, calculate_module_count_raw,
      module_count_spec, pdiv, pmul, padd, pceil, Except.toOption, bind,
      Except.bind, pure, Except.pure, hm.ne']
  · have hc : (⌈(7727 / 2000 : ℚ)⌉ : ℤ) = 4 := by
      rw [Int.ceil_eq_iff]
      norm_num
    norm_num [calculate_module_count, calculate_module_count_raw, pdiv, pmul,
      padd, pceil, Except.toOption, bind, Except.bind, pure, Except.pure, hc]
  · have hc : (⌈(6 : ℚ)⌉ : ℤ) = 6 := by
      rw [Int.ceil_eq_iff]
      norm_num
    norm_num [calculate_module_count, calculate_module_count_raw, pdiv, pmul,
      padd, pceil, Except.toOption, bind, Except.bind, pure, Except.pure, hc]
  · have hc : (⌈(7 : ℚ)⌉ : ℤ) = 7 := by
      rw [Int.ceil_eq_iff]
      norm_num
    norm_num [calculate_module_count, calculate_module_count_raw, pdiv, pmul,
      padd, pceil, Except.toOption, bind, Except.bind, pure, Except.pure, hc]

/-- Witness for C7 at battery capacity 400 Ah, frequent current 27.27 A,
module rated current 20 A. -/
theorem C7_module_count_formulas_witness :
    (0 : ℚ) < 20 ∧
    calculate_module_count (.fin 400) (.fin 27.27) (.fin 20) =
      some (module_count_spec 400 27.27 20) :=
  ⟨by norm_num, C7_module_count_formulas.1 400 27.27 20 (by norm_num)⟩

/-- C4 counterexample: a strictly negative module rated current is not
rejected: compute(400, 27.27, -20) returns a normal numeric result with
a negative module count instead of an error state. -/
theorem C4_negative_module_current_returns_result :
    calculate_module_count (.fin 400) (.fin 27.27) (.fin (-20)) =
      some ⟨.fin 77.27, -3, 1, -2⟩ := by
  have hc : (⌈(-(7727 / 2000) : ℚ)⌉ : ℤ) = -3 := by
    rw [Int.ceil_eq_iff]
    norm_num
  norm_num [calculate_module_count, calculate_module_count_raw, pdiv, pmul,
    padd, pceil, Except.toOption, bind, Except.bind, pure, Except.pure, hc]

/-- C4 amended: on finite inputs the module calculator fails (returns
None) exactly when the module rated current is 0 (the caught
ZeroDivisionError); a negative module rated current is accepted; among
non-finite inputs, a NaN battery capacity gives None (caught ValueError
from the ceiling), but an infinite module rated current gives a normal
result with n1 = 0 — there is no sign or finiteness validation. -/
theorem C4_amended_failure_condition :
    (∀ b f m : ℚ,
      (calculate_module_count (.fin b) (.fin f) (.fin m) = none ↔ m = 0)) ∧
    (∀ b f : ℚ, calculate_module_count (.fin b) (.fin f) .pinf =
      some ⟨.fin (1.25 * (b / 10) + f), 0, 1, 1⟩) ∧
    (∀ f m : ℚ, calculate_module_count .nan (.fin f) (.fin m) = none) := by
  refine ⟨fun b f m => ?_, fun b f => ?_, fun f m => ?_⟩
  · by_cases hm : m = 0
    · norm_num [calculate_module_count, calculate_module_count_raw, pdiv,
        pmul, padd, pceil, Except.toOption, bind, Except.bind, pure,
        Except.pure, hm]
    · simp only [hm, iff_false]
      norm_num [calculate_module_count, calculate_module_count_raw, pdiv,
        pmul, padd, pceil, Except.toOption, bind, Except.bind, pure,
        Except.pure, hm]
      exact Option.some_ne_none _
  · norm_num [calculate_module_count, calculate_module_count_raw, pdiv, pmul,
      padd, pceil, Except.toOption, bind, Except.bind, pure, Except.pure]
  · by_cases hm : m = 0 <;>
      norm_num [calculate_module_count, calculate_module_count_raw, pdiv,
        pmul, padd, pceil, Except.toOption, bind, Except.bind, pure,
        Except.pure, hm]

/-- C10: the module calculator never propagates an exception: whatever
the three float inputs, the catch-all handler turns a raising body into
the error value None and a completing body into its full result record;
in particular a module rated current of 0 raises ZeroDivisionError in
the body, and the caller sees None. -/
theorem C10_wrapper_catches_all_exceptions :
    (∀ b f m : PFloat,
      (∃ r, calculate_module_count_raw b f m = .ok r ∧
        calculate_module_count b f m = some r) ∨
      (∃ e, calculate_module_count_raw b f m = .error e ∧
        calculate_module_count b f m = none)) ∧
    calculate_module_count_raw (.fin 400) (.fin 27.27) (.fin 0) =
      .error .zeroDivision ∧
    calculate_module_count (.fin 400) (.fin 27.27) (.fin 0) = none := by
  refine ⟨fun b f m => ?_, ?_, ?_⟩
  · cases h : calculate_module_count_raw b f m with
    | ok r =>
      exact Or.inl ⟨r, rfl, by simp [calculate_module_count, h, Except.toOption]⟩
    | error e =>
      exact Or.inr ⟨e, rfl, by simp [calculate_module_count, h, Except.toOption]⟩
  · norm_num [calculate_module_count_raw, pdiv, pmul, padd, pceil, bind,
      Except.bind, pure, Except.pure]
  · norm_num [calculate_module_count, calculate_module_count_raw, pdiv, pmul,
      padd, pceil, Except.toOption, bind, Except.bind, pure, Except.pure]

end DC
